import Mathlib

/-!
Shallow embedding of the zod-express validation adapter (src/src/index.ts and
the middleware module).

The library wraps express endpoints with zod validation.  We model a zod
schema as a function from a raw value to a parse result (mirroring
`schema.safeParse`), and an endpoint invocation as the ordered list of
observable effects it performs: applying a schema to a request part, calling
the wrapped handler, calling a configured errorHandler, sending an HTTP
response, or (for middleware) calling `next()`.  Each branch of the
TypeScript code performs exactly the effects recorded here, in the recorded
order.
-/

namespace ZodExpress

/-- A single zod issue; only the `message` field is read by this library. -/
structure ZodIssue where
  message : String
deriving Repr, DecidableEq

/-- A zod error: the ordered list of issues carried by a failed parse.
In zod a failed parse always carries at least one issue; the model allows
the empty list so that claims about non-emptiness can be stated. -/
structure ZodError where
  errors : List ZodIssue
deriving Repr, DecidableEq

/-- Result of `schema.safeParse`: either a typed success value or a
structured error. -/
inductive ParseResult (T : Type) where
  | success (data : T)
  | failure (error : ZodError)
deriving Repr, DecidableEq

/-- A zod schema `z.Schema<T>` over raw values of type `V`, viewed through
its `safeParse` method. -/
abbrev Schema (V T : Type) := V → ParseResult T

namespace ze

/-- `ze.getError`: reads `errors.errors[0].message`.  In JavaScript, index-0
access on an empty array yields `undefined` and the subsequent `.message`
access throws; `none` models that crash. -/
def getError (errors : ZodError) : Option String :=
  (errors.errors.head?).map ZodIssue.message

end ze

/-- The express request, carrying raw body, params and query values. -/
structure Request (B P Q : Type) where
  body : B
  params : P
  query : Q
deriving Repr, DecidableEq

/-- `ze.ValidationOptions = Partial<CheckConfig>`: both fields optional.
The `errorHandler` field only matters through its presence (the function
itself is an external callback), so it is modelled as `Option Unit`. -/
structure ValidationOptions where
  errorCode : Option Nat
  errorHandler : Option Unit
deriving Repr, DecidableEq

/-- `ze.PartinalCheck`: up to three optional schemas, one per request part. -/
structure PartinalCheck (B P Q U V W : Type) where
  body : Option (Schema B U)
  params : Option (Schema P V)
  query : Option (Schema Q W)

/-- The three request parts a schema can be attached to. -/
inductive Part where
  | body
  | params
  | query
deriving Repr, DecidableEq

/-- Observable effects of one endpoint invocation, in execution order.
`callHandler` records the request object actually passed to the wrapped
handler together with the handler result; `sendResponse` records the status
and the body (`none` models the crash inside `ze.getError` on an empty
error list). -/
inductive Effect (B P Q R : Type) where
  | applySchema (part : Part)
  | callHandler (req : Request B P Q) (result : R)
  | callErrorHandler (req : Request B P Q) (error : ZodError)
  | sendResponse (status : Nat) (body : Option String)
  | callNext
deriving Repr, DecidableEq

/-- The error-emission code repeated verbatim in every failure branch:
`if (config?.errorHandler) return config.errorHandler(req, res, err);
return res.status(config?.errorCode ?? 406).send(ze.getError(err));`. -/
def emitError {B P Q R : Type} (config : Option ValidationOptions)
    (req : Request B P Q) (error : ZodError) : Effect B P Q R :=
  match config.bind ValidationOptions.errorHandler with
  | some _ => Effect.callErrorHandler req error
  | none =>
      Effect.sendResponse ((config.bind ValidationOptions.errorCode).getD 406)
        (ze.getError error)

/-- `CheckBody(schema, handler, config?)`: parse the body; on failure emit
the error, on success call the handler with the original request. -/
def CheckBody {B P Q U R : Type} (schema : Schema B U)
    (handler : Request B P Q → R) (config : Option ValidationOptions)
    (req : Request B P Q) : List (Effect B P Q R) :=
  match schema req.body with
  | ParseResult.failure e =>
      [Effect.applySchema Part.body, emitError config req e]
  | ParseResult.success _ =>
      [Effect.applySchema Part.body, Effect.callHandler req (handler req)]

/-- `CheckParams(schema, handler, config?)`. -/
def CheckParams {B P Q V R : Type} (schema : Schema P V)
    (handler : Request B P Q → R) (config : Option ValidationOptions)
    (req : Request B P Q) : List (Effect B P Q R) :=
  match schema req.params with
  | ParseResult.failure e =>
      [Effect.applySchema Part.params, emitError config req e]
  | ParseResult.success _ =>
      [Effect.applySchema Part.params, Effect.callHandler req (handler req)]

/-- `CheckQuery(schema, handler, config?)`. -/
def CheckQuery {B P Q W R : Type} (schema : Schema Q W)
    (handler : Request B P Q → R) (config : Option ValidationOptions)
    (req : Request B P Q) : List (Effect B P Q R) :=
  match schema req.query with
  | ParseResult.failure e =>
      [Effect.applySchema Part.query, emitError config req e]
  | ParseResult.success _ =>
      [Effect.applySchema Part.query, Effect.callHandler req (handler req)]

/-- Schema applications performed eagerly at the top of `Check`:
`schemas.body?.safeParse(req.body); schemas.params?.safeParse(req.params);
schemas.query?.safeParse(req.query);` — one application per supplied
schema, in the order body, params, query, before any result is checked. -/
def appliedList {B P Q U V W R : Type}
    (schemas : PartinalCheck B P Q U V W) : List (Effect B P Q R) :=
  (schemas.body.map (fun _ => Effect.applySchema Part.body)).toList ++
    (schemas.params.map (fun _ => Effect.applySchema Part.params)).toList ++
    (schemas.query.map (fun _ => Effect.applySchema Part.query)).toList

/-- The if-chain of `Check` over the three (optional) parse results:
body failure first, then params, then query, else call the handler. -/
def checkBranch {B P Q U V W R : Type} (body : Option (ParseResult U))
    (params : Option (ParseResult V)) (query : Option (ParseResult W))
    (handler : Request B P Q → R) (config : Option ValidationOptions)
    (req : Request B P Q) : Effect B P Q R :=
  match body with
  | some (ParseResult.failure e) => emitError config req e
  | _ =>
    match params with
    | some (ParseResult.failure e) => emitError config req e
    | _ =>
      match query with
      | some (ParseResult.failure e) => emitError config req e
      | _ => Effect.callHandler req (handler req)

/-- `Check(schemas, handler, config?)`: all supplied schemas are applied
up front, then the results are examined in the fixed order body, params,
query; the terminal effect is the first failure's error emission, or the
handler call. -/
def Check {B P Q U V W R : Type} (schemas : PartinalCheck B P Q U V W)
    (handler : Request B P Q → R) (config : Option ValidationOptions)
    (req : Request B P Q) : List (Effect B P Q R) :=
  let body := schemas.body.map (fun s => s req.body)
  let params := schemas.params.map (fun s => s req.params)
  let query := schemas.query.map (fun s => s req.query)
  appliedList schemas ++ [checkBranch body params query handler config req]

/-- `TypedPropertyDescriptor`, reduced to its `value` field, the only one
the decorators touch. -/
structure TypedPropertyDescriptor (α : Type) where
  value : α

/-- `ValidateBody(schema, config?)`: the decorator rewrites the method's
value to `CheckBody(schema, original, config)` once, at definition time. -/
def ValidateBody {B P Q U R : Type} (schema : Schema B U)
    (config : Option ValidationOptions) (_target : Unit) (_propertyKey : String)
    (descriptor : TypedPropertyDescriptor (Request B P Q → R)) :
    TypedPropertyDescriptor (Request B P Q → List (Effect B P Q R)) :=
  { value := CheckBody schema descriptor.value config }

/-- `ValidateParams(schema, config?)`. -/
def ValidateParams {B P Q V R : Type} (schema : Schema P V)
    (config : Option ValidationOptions) (_target : Unit) (_propertyKey : String)
    (descriptor : TypedPropertyDescriptor (Request B P Q → R)) :
    TypedPropertyDescriptor (Request B P Q → List (Effect B P Q R)) :=
  { value := CheckParams schema descriptor.value config }

/-- `ValidateQuery(schema, config?)`. -/
def ValidateQuery {B P Q W R : Type} (schema : Schema Q W)
    (config : Option ValidationOptions) (_target : Unit) (_propertyKey : String)
    (descriptor : TypedPropertyDescriptor (Request B P Q → R)) :
    TypedPropertyDescriptor (Request B P Q → List (Effect B P Q R)) :=
  { value := CheckQuery schema descriptor.value config }

/-- `Validate(schemas, config?)`. -/
def Validate {B P Q U V W R : Type}
    (schemas : PartinalCheck B P Q U V W)
    (config : Option ValidationOptions) (_target : Unit) (_propertyKey : String)
    (descriptor : TypedPropertyDescriptor (Request B P Q → R)) :
    TypedPropertyDescriptor (Request B P Q → List (Effect B P Q R)) :=
  { value := Check schemas descriptor.value config }

namespace zem

/-- `zem.Body(schema, config?)`: middleware form of body validation; on
success it calls `next()` instead of a handler. -/
def Body {B P Q R : Type} {T : Type} (schema : Schema B T)
    (config : Option ValidationOptions) (req : Request B P Q) :
    List (Effect B P Q R) :=
  match schema req.body with
  | ParseResult.failure e =>
      [Effect.applySchema Part.body, emitError config req e]
  | ParseResult.success _ =>
      [Effect.applySchema Part.body, Effect.callNext]

/-- `zem.Params(schema, config?)`. -/
def Params {B P Q R : Type} {T : Type} (schema : Schema P T)
    (config : Option ValidationOptions) (req : Request B P Q) :
    List (Effect B P Q R) :=
  match schema req.params with
  | ParseResult.failure e =>
      [Effect.applySchema Part.params, emitError config req e]
  | ParseResult.success _ =>
      [Effect.applySchema Part.params, Effect.callNext]

/-- `zem.Query(schema, config?)`. -/
def Query {B P Q R : Type} {T : Type} (schema : Schema Q T)
    (config : Option ValidationOptions) (req : Request B P Q) :
    List (Effect B P Q R) :=
  match schema req.query with
  | ParseResult.failure e =>
      [Effect.applySchema Part.query, emitError config req e]
  | ParseResult.success _ =>
      [Effect.applySchema Part.query, Effect.callNext]

/-- The if-chain of `zem.Check`: identical to the core `Check` branch
except that full success calls `next()`. -/
def checkBranch {B P Q U V W R : Type} (body : Option (ParseResult U))
    (params : Option (ParseResult V)) (query : Option (ParseResult W))
    (config : Option ValidationOptions) (req : Request B P Q) :
    Effect B P Q R :=
  match body with
  | some (ParseResult.failure e) => emitError config req e
  | _ =>
    match params with
    | some (ParseResult.failure e) => emitError config req e
    | _ =>
      match query with
      | some (ParseResult.failure e) => emitError config req e
      | _ => Effect.callNext

/-- `zem.Check(schemas, config?)`: same eager parsing and check order as the
core `Check`, ending in `next()` on full success. -/
def Check {B P Q U V W R : Type} (schemas : PartinalCheck B P Q U V W)
    (config : Option ValidationOptions) (req : Request B P Q) :
    List (Effect B P Q R) :=
  let body := schemas.body.map (fun s => s req.body)
  let params := schemas.params.map (fun s => s req.params)
  let query := schemas.query.map (fun s => s req.query)
  appliedList schemas ++ [zem.checkBranch body params query config req]

end zem

/-- An effect is settled when it is a terminal action of the adapter (a
handler call, errorHandler call, response, or `next()`), as opposed to a
schema application. -/
def isSettled {B P Q R : Type} : Effect B P Q R → Bool
  | Effect.applySchema _ => false
  | _ => true

/-- Whether an effect is an invocation of the wrapped handler. -/
def isHandlerCall {B P Q R : Type} : Effect B P Q R → Bool
  | Effect.callHandler _ _ => true
  | _ => false

/-- Whether an effect is an error emission: an errorHandler invocation or a
default error response. -/
def isErrorEmission {B P Q R : Type} : Effect B P Q R → Bool
  | Effect.callErrorHandler _ _ => true
  | Effect.sendResponse _ _ => true
  | _ => false

/-- The error of the first failing designated part, in the fixed order
body, params, query, if any part fails. -/
def firstFailure {B P Q U V W : Type}
    (schemas : PartinalCheck B P Q U V W) (req : Request B P Q) :
    Option ZodError :=
  match schemas.body.map (fun s => s req.body) with
  | some (ParseResult.failure e) => some e
  | _ =>
    match schemas.params.map (fun s => s req.params) with
    | some (ParseResult.failure e) => some e
    | _ =>
      match schemas.query.map (fun s => s req.query) with
      | some (ParseResult.failure e) => some e
      | _ => none

/-- Renames a core-adapter trace to a middleware trace: a handler call
becomes `next()`, every other effect is unchanged. -/
def toMiddlewareEffect {B P Q R : Type} : Effect B P Q R → Effect B P Q R
  | Effect.callHandler _ _ => Effect.callNext
  | e => e

/-- Variant of `firstFailure` over already-computed parse results. -/
def firstFailureRes {U V W : Type} (body : Option (ParseResult U))
    (params : Option (ParseResult V)) (query : Option (ParseResult W)) :
    Option ZodError :=
  match body with
  | some (ParseResult.failure e) => some e
  | _ =>
    match params with
    | some (ParseResult.failure e) => some e
    | _ =>
      match query with
      | some (ParseResult.failure e) => some e
      | _ => none

theorem firstFailure_eq_res {B P Q U V W : Type}
    (schemas : PartinalCheck B P Q U V W) (req : Request B P Q) :
    firstFailure schemas req =
      firstFailureRes (schemas.body.map (fun s => s req.body))
        (schemas.params.map (fun s => s req.params))
        (schemas.query.map (fun s => s req.query)) := rfl

theorem checkBranch_eq {B P Q U V W R : Type}
    (body : Option (ParseResult U)) (params : Option (ParseResult V))
    (query : Option (ParseResult W)) (handler : Request B P Q → R)
    (config : Option ValidationOptions) (req : Request B P Q) :
    checkBranch body params query handler config req =
      match firstFailureRes body params query with
      | some e => emitError config req e
      | none => Effect.callHandler req (handler req) := by
  rcases body with _ | (tb | eb) <;> rcases params with _ | (tp | ep) <;>
    rcases query with _ | (tq | eq') <;> rfl

theorem zem_checkBranch_eq {B P Q U V W R : Type}
    (body : Option (ParseResult U)) (params : Option (ParseResult V))
    (query : Option (ParseResult W)) (config : Option ValidationOptions)
    (req : Request B P Q) :
    zem.checkBranch body params query config req =
      (match firstFailureRes body params query with
      | some e => emitError config req e
      | none => Effect.callNext : Effect B P Q R) := by
  rcases body with _ | (tb | eb) <;> rcases params with _ | (tp | ep) <;>
    rcases query with _ | (tq | eq') <;> rfl

theorem check_eq_firstFailure {B P Q U V W R : Type}
    (schemas : PartinalCheck B P Q U V W) (handler : Request B P Q → R)
    (config : Option ValidationOptions) (req : Request B P Q) :
    Check schemas handler config req =
      appliedList schemas ++
        [match firstFailure schemas req with
          | some e => emitError config req e
          | none => Effect.callHandler req (handler req)] := by
  rw [firstFailure_eq_res]
  simp only [Check]
  rw [checkBranch_eq]

theorem check_of_firstFailure_some {B P Q U V W R : Type}
    (schemas : PartinalCheck B P Q U V W) (handler : Request B P Q → R)
    (config : Option ValidationOptions) (req : Request B P Q) (e : ZodError)
    (h : firstFailure schemas req = some e) :
    Check schemas handler config req =
      appliedList schemas ++ [emitError config req e] := by
  rw [check_eq_firstFailure, h]

theorem check_of_firstFailure_none {B P Q U V W R : Type}
    (schemas : PartinalCheck B P Q U V W) (handler : Request B P Q → R)
    (config : Option ValidationOptions) (req : Request B P Q)
    (h : firstFailure schemas req = none) :
    Check schemas handler config req =
      appliedList schemas ++ [Effect.callHandler req (handler req)] := by
  rw [check_eq_firstFailure, h]

theorem filter_isSettled_appliedList {B P Q U V W R : Type}
    (schemas : PartinalCheck B P Q U V W) :
    (appliedList schemas : List (Effect B P Q R)).filter isSettled = [] := by
  rcases schemas with ⟨b, p, q⟩
  rcases b <;> rcases p <;> rcases q <;> rfl

theorem isSettled_false_of_mem_appliedList {B P Q U V W R : Type}
    (schemas : PartinalCheck B P Q U V W) (a : Effect B P Q R)
    (h : a ∈ (appliedList schemas : List (Effect B P Q R))) :
    isSettled a = false := by
  have hf := filter_isSettled_appliedList (R := R) schemas
  rw [List.filter_eq_nil_iff] at hf
  simpa using hf a h

theorem isErrorEmission_emitError {B P Q R : Type}
    (config : Option ValidationOptions) (req : Request B P Q) (e : ZodError) :
    isErrorEmission (emitError config req e : Effect B P Q R) = true := by
  unfold emitError
  rcases config.bind ValidationOptions.errorHandler with _ | _ <;> rfl

theorem isSettled_emitError {B P Q R : Type}
    (config : Option ValidationOptions) (req : Request B P Q) (e : ZodError) :
    isSettled (emitError config req e : Effect B P Q R) = true := by
  unfold emitError
  rcases config.bind ValidationOptions.errorHandler with _ | _ <;> rfl

theorem isHandlerCall_emitError {B P Q R : Type}
    (config : Option ValidationOptions) (req : Request B P Q) (e : ZodError) :
    isHandlerCall (emitError config req e : Effect B P Q R) = false := by
  unfold emitError
  rcases config.bind ValidationOptions.errorHandler with _ | _ <;> rfl

theorem toMiddlewareEffect_emitError {B P Q R : Type}
    (config : Option ValidationOptions) (req : Request B P Q) (e : ZodError) :
    toMiddlewareEffect (emitError config req e : Effect B P Q R) =
      emitError config req e := by
  unfold emitError
  rcases config.bind ValidationOptions.errorHandler with _ | _ <;> rfl

theorem map_toMiddlewareEffect_appliedList {B P Q U V W R : Type}
    (schemas : PartinalCheck B P Q U V W) :
    (appliedList schemas : List (Effect B P Q R)).map toMiddlewareEffect =
      appliedList schemas := by
  rcases schemas with ⟨b, p, q⟩
  rcases b <;> rcases p <;> rcases q <;> rfl

theorem check_filter_settled {B P Q U V W R : Type}
    (schemas : PartinalCheck B P Q U V W) (handler : Request B P Q → R)
    (config : Option ValidationOptions) (req : Request B P Q) :
    (Check schemas handler config req).filter isSettled =
      [match firstFailure schemas req with
        | some e => emitError config req e
        | none => Effect.callHandler req (handler req)] := by
  rw [check_eq_firstFailure, List.filter_append, filter_isSettled_appliedList]
  cases hf : firstFailure schemas req with
  | some e => simp [List.filter_cons, isSettled_emitError]
  | none => simp [List.filter_cons, isSettled]

theorem checkBody_eq_check {B P Q U R : Type} (V W : Type) (schema : Schema B U)
    (handler : Request B P Q → R) (config : Option ValidationOptions)
    (req : Request B P Q) :
    CheckBody schema handler config req =
      Check (⟨some schema, none, none⟩ : PartinalCheck B P Q U V W)
        handler config req := by
  cases hb : schema req.body <;>
    simp [CheckBody, Check, appliedList, checkBranch, hb]

theorem checkParams_eq_check {B P Q V R : Type} (U W : Type)
    (schema : Schema P V) (handler : Request B P Q → R)
    (config : Option ValidationOptions) (req : Request B P Q) :
    CheckParams schema handler config req =
      Check (⟨none, some schema, none⟩ : PartinalCheck B P Q U V W)
        handler config req := by
  cases hp : schema req.params <;>
    simp [CheckParams, Check, appliedList, checkBranch, hp]

theorem checkQuery_eq_check {B P Q W R : Type} (U V : Type)
    (schema : Schema Q W) (handler : Request B P Q → R)
    (config : Option ValidationOptions) (req : Request B P Q) :
    CheckQuery schema handler config req =
      Check (⟨none, none, some schema⟩ : PartinalCheck B P Q U V W)
        handler config req := by
  cases hq : schema req.query <;>
    simp [CheckQuery, Check, appliedList, checkBranch, hq]

theorem applySchema_params_mem_appliedList {B P Q U V W R : Type}
    (schemas : PartinalCheck B P Q U V W) (sp : Schema P V)
    (hsp : schemas.params = some sp) :
    Effect.applySchema Part.params ∈
      (appliedList schemas : List (Effect B P Q R)) := by
  rcases schemas with ⟨b, p, q⟩
  replace hsp : p = some sp := hsp
  subst hsp
  rcases b <;> rcases q <;> simp [appliedList]

theorem applySchema_query_mem_appliedList {B P Q U V W R : Type}
    (schemas : PartinalCheck B P Q U V W) (sq : Schema Q W)
    (hsq : schemas.query = some sq) :
    Effect.applySchema Part.query ∈
      (appliedList schemas : List (Effect B P Q R)) := by
  rcases schemas with ⟨b, p, q⟩
  replace hsq : q = some sq := hsq
  subst hsq
  rcases b <;> rcases p <;> simp [appliedList]

/- Concrete fixtures used by the witnesses and counterexamples below. -/

/-- A schema that rejects every raw value with the message "invalid body". -/
def failBodySchema : Schema String String :=
  fun _ => ParseResult.failure ⟨[⟨"invalid body"⟩]⟩

/-- A schema that accepts every raw string unchanged. -/
def okStringSchema : Schema String String :=
  fun v => ParseResult.success v

/-- A coercing schema: accepts exactly "42" and coerces it to "forty-two". -/
def coerceSchema : Schema String String :=
  fun v =>
    if v = "42" then ParseResult.success "forty-two"
    else ParseResult.failure ⟨[⟨"not 42"⟩]⟩

/-- A schema rejecting everything with the message "invalid params". -/
def failParamsSchema : Schema String String :=
  fun _ => ParseResult.failure ⟨[⟨"invalid params"⟩]⟩

/-- A schema rejecting everything with the message "invalid query". -/
def failQuerySchema : Schema String String :=
  fun _ => ParseResult.failure ⟨[⟨"invalid query"⟩]⟩

/-- A concrete request with string-valued parts. -/
def sampleReq : Request String String String := ⟨"b", "42", "q"⟩

/-- A concrete handler returning the params part of the request it got. -/
def sampleHandler : Request String String String → String := fun r => r.params

/-- A CheckSpec with only a (failing) body schema. -/
def specB : PartinalCheck String String String String String String :=
  ⟨some failBodySchema, none, none⟩

/-- A CheckSpec with a failing body schema and a passing query schema. -/
def specC2 : PartinalCheck String String String String String String :=
  ⟨some failBodySchema, none, some okStringSchema⟩

/-- A CheckSpec with only the coercing params schema. -/
def specC5 : PartinalCheck String String String String String String :=
  ⟨none, some coerceSchema, none⟩

/-- A CheckSpec whose params and query schemas both fail. -/
def spec6 : PartinalCheck String String String String String String :=
  ⟨none, some failParamsSchema, some failQuerySchema⟩

/-- A configuration with errorCode 400 and no errorHandler. -/
def cfg400 : Option ValidationOptions := some ⟨some 400, none⟩

/-- A configuration with errorCode 400 and an errorHandler supplied. -/
def cfgH : Option ValidationOptions := some ⟨some 400, some ()⟩

/-- Claim C1: every invocation of an endpoint produced by Check (or
CheckBody/CheckParams/CheckQuery) performs exactly one terminal action —
either the wrapped handler is invoked, or an error emission happens (an
error response is sent or the errorHandler is invoked) — never both and
never neither. -/
theorem C1_exactly_one_terminal_action {B P Q U V W R : Type}
    (schemas : PartinalCheck B P Q U V W) (sb : Schema B U) (sp : Schema P V)
    (sq : Schema Q W) (handler : Request B P Q → R)
    (config : Option ValidationOptions) (req : Request B P Q) :
    (∃ a, (Check schemas handler config req).filter isSettled = [a] ∧
        (isHandlerCall a = true ∨ isErrorEmission a = true)) ∧
    (∃ a, (CheckBody sb handler config req).filter isSettled = [a] ∧
        (isHandlerCall a = true ∨ isErrorEmission a = true)) ∧
    (∃ a, (CheckParams sp handler config req).filter isSettled = [a] ∧
        (isHandlerCall a = true ∨ isErrorEmission a = true)) ∧
    (∃ a, (CheckQuery sq handler config req).filter isSettled = [a] ∧
        (isHandlerCall a = true ∨ isErrorEmission a = true)) := by
  have main : ∀ (schemas2 : PartinalCheck B P Q U V W),
      ∃ a, (Check schemas2 handler config req).filter isSettled = [a] ∧
        (isHandlerCall a = true ∨ isErrorEmission a = true) := by
    intro schemas2
    rw [check_filter_settled]
    cases hf : firstFailure schemas2 req with
    | some e => exact ⟨_, rfl, Or.inr (isErrorEmission_emitError config req e)⟩
    | none => exact ⟨_, rfl, Or.inl rfl⟩
  refine ⟨main schemas, ?_, ?_, ?_⟩
  · rw [checkBody_eq_check V W]; exact main _
  · rw [checkParams_eq_check U W]; exact main _
  · rw [checkQuery_eq_check U V]; exact main _

/-- Claim C10: CheckBody, CheckParams and CheckQuery behave identically to
Check with the corresponding single-schema CheckSpec — the same effect
trace for every schema, handler, config and request. -/
theorem C10_single_part_equals_check {B P Q U V W R : Type}
    (sb : Schema B U) (sp : Schema P V) (sq : Schema Q W)
    (handler : Request B P Q → R) (config : Option ValidationOptions)
    (req : Request B P Q) :
    CheckBody sb handler config req =
      Check (⟨some sb, none, none⟩ : PartinalCheck B P Q U V W)
        handler config req ∧
    CheckParams sp handler config req =
      Check (⟨none, some sp, none⟩ : PartinalCheck B P Q U V W)
        handler config req ∧
    CheckQuery sq handler config req =
      Check (⟨none, none, some sq⟩ : PartinalCheck B P Q U V W)
        handler config req :=
  ⟨checkBody_eq_check V W sb handler config req,
    checkParams_eq_check U W sp handler config req,
    checkQuery_eq_check U V sq handler config req⟩

/-- Claim C7: an endpoint built from an empty CheckSpec invokes the handler
unconditionally, and a query-only CheckSpec validates only the query: the
outcome is decided by the query schema on the query part alone, so body
and params content can never cause a failure. -/
theorem C7_empty_and_partial_specs {B P Q U V W R : Type}
    (handler : Request B P Q → R) (config : Option ValidationOptions)
    (req : Request B P Q) (sq : Schema Q W) :
    Check (⟨none, none, none⟩ : PartinalCheck B P Q U V W)
        handler config req = [Effect.callHandler req (handler req)] ∧
    ((∃ e, sq req.query = ParseResult.failure e ∧
        Check (⟨none, none, some sq⟩ : PartinalCheck B P Q U V W)
            handler config req =
          [Effect.applySchema Part.query, emitError config req e]) ∨
      (∃ t, sq req.query = ParseResult.success t ∧
        Check (⟨none, none, some sq⟩ : PartinalCheck B P Q U V W)
            handler config req =
          [Effect.applySchema Part.query,
            Effect.callHandler req (handler req)])) := by
  constructor
  · rfl
  · cases hq : sq req.query with
    | success t =>
        exact Or.inr ⟨t, rfl, by simp [Check, appliedList, checkBranch, hq]⟩
    | failure e =>
        exact Or.inl ⟨e, rfl, by simp [Check, appliedList, checkBranch, hq]⟩

/-- Claim C2 is false as stated: with a failing body schema and a supplied
query schema, the query schema is still applied to the request — `Check`
parses all supplied parts eagerly before examining any result, so a body
failure does not prevent the query schema from being applied; only the
error reporting short-circuits. -/
theorem C2_counterexample :
    Check specC2 sampleHandler none sampleReq =
      [Effect.applySchema Part.body, Effect.applySchema Part.query,
        Effect.sendResponse 406 (some "invalid body")] ∧
    Effect.applySchema Part.query ∈ Check specC2 sampleHandler none sampleReq := by
  have h : Check specC2 sampleHandler none sampleReq =
      [Effect.applySchema Part.body, Effect.applySchema Part.query,
        Effect.sendResponse 406 (some "invalid body")] := rfl
  exact ⟨h, by rw [h]; simp⟩

/-- Claim C2, amended: the first validation failure in the fixed order
body, params, query determines the single error emission, which follows
immediately after the parsing phase; however, every supplied schema is
applied eagerly before any result is checked, so the schemas of later
parts are applied even when an earlier part fails. -/
theorem C2_amended_first_failure_reported {B P Q U V W R : Type}
    (schemas : PartinalCheck B P Q U V W) (handler : Request B P Q → R)
    (config : Option ValidationOptions) (req : Request B P Q) (e : ZodError)
    (hf : firstFailure schemas req = some e) :
    Check schemas handler config req =
      appliedList schemas ++ [emitError config req e] ∧
    (∀ sp, schemas.params = some sp →
      Effect.applySchema Part.params ∈ Check schemas handler config req) ∧
    (∀ sq, schemas.query = some sq →
      Effect.applySchema Part.query ∈ Check schemas handler config req) := by
  refine ⟨check_of_firstFailure_some schemas handler config req e hf, ?_, ?_⟩
  · intro sp hsp
    rw [check_of_firstFailure_some schemas handler config req e hf,
      List.mem_append]
    exact Or.inl (applySchema_params_mem_appliedList schemas sp hsp)
  · intro sq hsq
    rw [check_of_firstFailure_some schemas handler config req e hf,
      List.mem_append]
    exact Or.inl (applySchema_query_mem_appliedList schemas sq hsq)

/-- Witness for the amended C2 at a concrete input: the body fails, the
query schema is supplied, the body error is reported and the query schema
was still applied. -/
theorem C2_amended_witness :
    firstFailure specC2 sampleReq = some ⟨[⟨"invalid body"⟩]⟩ ∧
    Check specC2 sampleHandler none sampleReq =
      appliedList specC2 ++ [emitError none sampleReq ⟨[⟨"invalid body"⟩]⟩] :=
  ⟨rfl,
    (C2_amended_first_failure_reported specC2 sampleHandler none sampleReq
      ⟨[⟨"invalid body"⟩]⟩ rfl).1⟩

/-- Claim C3: when a designated part fails validation and no errorHandler
is configured, the adapter sends a response whose status is
options.errorCode when supplied and 406 otherwise, and whose body is the
first error message of the failure's error list; under the non-emptiness
precondition, ze.getError succeeds with that first message. -/
theorem C3_default_error_response {B P Q U V W R : Type}
    (schemas : PartinalCheck B P Q U V W) (handler : Request B P Q → R)
    (config : Option ValidationOptions) (req : Request B P Q) (e : ZodError)
    (m : ZodIssue) (rest : List ZodIssue)
    (hnh : config.bind ValidationOptions.errorHandler = none)
    (hf : firstFailure schemas req = some e) (hne : e.errors = m :: rest) :
    Check schemas handler config req =
      appliedList schemas ++
        [Effect.sendResponse
          ((config.bind ValidationOptions.errorCode).getD 406)
          (some m.message)] ∧
    ze.getError e = some m.message := by
  have hg : ze.getError e = some m.message := by simp [ze.getError, hne]
  refine ⟨?_, hg⟩
  rw [check_of_firstFailure_some schemas handler config req e hf]
  simp [emitError, hnh, hg]

/-- Witness for C3 at a concrete input with errorCode 400: the response
status is exactly 400 and the body is the first error message. -/
theorem C3_witness :
    cfg400.bind ValidationOptions.errorHandler = none ∧
    firstFailure specB sampleReq = some ⟨[⟨"invalid body"⟩]⟩ ∧
    (⟨[⟨"invalid body"⟩]⟩ : ZodError).errors = ⟨"invalid body"⟩ :: [] ∧
    (Check specB sampleHandler cfg400 sampleReq =
        appliedList specB ++ [Effect.sendResponse 400 (some "invalid body")] ∧
      ze.getError ⟨[⟨"invalid body"⟩]⟩ = some "invalid body") :=
  ⟨rfl, rfl, rfl,
    C3_default_error_response specB sampleHandler cfg400 sampleReq
      ⟨[⟨"invalid body"⟩]⟩ ⟨"invalid body"⟩ [] rfl rfl rfl⟩

/-- Claim C4: when validation fails and options.errorHandler is supplied,
the errorHandler is invoked with the request and the structured failure,
the adapter sends no status or body of its own, and errorCode has no
effect on the outcome: any configuration with an errorHandler yields the
same trace. -/
theorem C4_errorHandler_overrides {B P Q U V W R : Type}
    (schemas : PartinalCheck B P Q U V W) (handler : Request B P Q → R)
    (config : Option ValidationOptions) (req : Request B P Q) (e : ZodError)
    (hh : (config.bind ValidationOptions.errorHandler).isSome = true)
    (hf : firstFailure schemas req = some e) :
    Check schemas handler config req =
      appliedList schemas ++ [Effect.callErrorHandler req e] ∧
    (∀ st b, Effect.sendResponse st b ∉ Check schemas handler config req) ∧
    (∀ config2, (config2.bind ValidationOptions.errorHandler).isSome = true →
      Check schemas handler config2 req = Check schemas handler config req) := by
  have hemit : ∀ (c : Option ValidationOptions),
      (c.bind ValidationOptions.errorHandler).isSome = true →
      (emitError c req e : Effect B P Q R) = Effect.callErrorHandler req e := by
    intro c hc
    unfold emitError
    cases hcc : c.bind ValidationOptions.errorHandler with
    | none => rw [hcc] at hc; simp at hc
    | some u => rfl
  have h1 : Check schemas handler config req =
      appliedList schemas ++ [Effect.callErrorHandler req e] := by
    rw [check_of_firstFailure_some schemas handler config req e hf,
      hemit config hh]
  refine ⟨h1, ?_, ?_⟩
  · intro st b hmem
    rw [h1] at hmem
    rcases List.mem_append.mp hmem with hmem | hmem
    · have hs := isSettled_false_of_mem_appliedList schemas _ hmem
      simp [isSettled] at hs
    · simp at hmem
  · intro config2 hh2
    rw [check_of_firstFailure_some schemas handler config2 req e hf,
      hemit config2 hh2, h1]

/-- Witness for C4 at a concrete input: validation fails with an
errorHandler configured, the errorHandler call is the terminal effect. -/
theorem C4_witness :
    (cfgH.bind ValidationOptions.errorHandler).isSome = true ∧
    firstFailure specB sampleReq = some ⟨[⟨"invalid body"⟩]⟩ ∧
    Check specB sampleHandler cfgH sampleReq =
      appliedList specB ++
        [Effect.callErrorHandler sampleReq ⟨[⟨"invalid body"⟩]⟩] :=
  ⟨rfl, rfl,
    (C4_errorHandler_overrides specB sampleHandler cfgH sampleReq
      ⟨[⟨"invalid body"⟩]⟩ rfl rfl).1⟩

/-- Claim C5 is false in its coercion half: the params schema coerces the
raw "42" to "forty-two", yet the handler is invoked with the original
request whose params value is still the raw "42"; the coerced value the
schema produced is discarded, and no handler call carrying it occurs. -/
theorem C5_counterexample :
    coerceSchema sampleReq.params = ParseResult.success "forty-two" ∧
    Check specC5 sampleHandler none sampleReq =
      [Effect.applySchema Part.params, Effect.callHandler sampleReq "42"] ∧
    Effect.callHandler
        (⟨"b", "forty-two", "q"⟩ : Request String String String) "forty-two" ∉
      Check specC5 sampleHandler none sampleReq ∧
    ("42" : String) ≠ "forty-two" := by
  refine ⟨rfl, rfl, ?_, by decide⟩
  intro hmem
  simp [Check, specC5, appliedList, checkBranch, coerceSchema, sampleReq,
    sampleHandler] at hmem

/-- Claim C5, amended: on success the wrapped handler is invoked with the
original request object, whose raw body, params and query values the
adapter has not mutated; any coerced value a schema produced is discarded
by the adapter — the handler receives the raw values, not the schema
outputs. -/
theorem C5_amended_handler_gets_original {B P Q U V W R : Type}
    (schemas : PartinalCheck B P Q U V W) (handler : Request B P Q → R)
    (config : Option ValidationOptions) (req : Request B P Q)
    (hf : firstFailure schemas req = none) :
    Check schemas handler config req =
      appliedList schemas ++ [Effect.callHandler req (handler req)] :=
  check_of_firstFailure_none schemas handler config req hf

/-- Witness for the amended C5 at a concrete input: the coercing params
schema succeeds and the handler receives the original request, with the
raw "42" in its params. -/
theorem C5_amended_witness :
    firstFailure specC5 sampleReq = none ∧
    Check specC5 sampleHandler none sampleReq =
      appliedList specC5 ++ [Effect.callHandler sampleReq "42"] :=
  ⟨rfl, C5_amended_handler_gets_original specC5 sampleHandler none sampleReq rfl⟩

/-- Claim C6: for a request invalid in both params and query, with the
body valid or carrying no schema, the reported error is the params error,
never the query error. -/
theorem C6_params_error_beats_query {B P Q U V W R : Type}
    (schemas : PartinalCheck B P Q U V W) (handler : Request B P Q → R)
    (config : Option ValidationOptions) (req : Request B P Q)
    (sp : Schema P V) (sq : Schema Q W) (ep eq' : ZodError)
    (hbody : ∀ sb, schemas.body = some sb →
      ∃ t, sb req.body = ParseResult.success t)
    (hsp : schemas.params = some sp)
    (hp : sp req.params = ParseResult.failure ep)
    (_hsq : schemas.query = some sq)
    (_hq : sq req.query = ParseResult.failure eq') :
    Check schemas handler config req =
      appliedList schemas ++ [emitError config req ep] := by
  apply check_of_firstFailure_some
  unfold firstFailure
  cases hb : schemas.body with
  | none => simp [hsp, hp]
  | some sb =>
      obtain ⟨t, ht⟩ := hbody sb hb
      simp [ht, hsp, hp]

/-- Witness for C6 at a concrete input: params and query both fail, the
params error is the one emitted. -/
theorem C6_witness :
    failParamsSchema sampleReq.params =
      ParseResult.failure ⟨[⟨"invalid params"⟩]⟩ ∧
    failQuerySchema sampleReq.query =
      ParseResult.failure ⟨[⟨"invalid query"⟩]⟩ ∧
    Check spec6 sampleHandler none sampleReq =
      appliedList spec6 ++ [emitError none sampleReq ⟨[⟨"invalid params"⟩]⟩] :=
  ⟨rfl, rfl,
    C6_params_error_beats_query spec6 sampleHandler none sampleReq
      failParamsSchema failQuerySchema ⟨[⟨"invalid params"⟩]⟩
      ⟨[⟨"invalid query"⟩]⟩ (fun _ h => Option.noConfusion h) rfl rfl rfl rfl⟩

/-- Claim C8: each middleware operation (zem.Check, zem.Body, zem.Params,
zem.Query) behaves identically to its core counterpart except for the
success continuation: its trace is the core trace with the handler call
renamed to a next() call, so error emission is identical and success
calls next() exactly once. -/
theorem C8_middleware_mirrors_core {B P Q U V W R : Type}
    (schemas : PartinalCheck B P Q U V W) (sb : Schema B U) (sp : Schema P V)
    (sq : Schema Q W) (handler : Request B P Q → R)
    (config : Option ValidationOptions) (req : Request B P Q) :
    zem.Check schemas config req =
      (Check schemas handler config req).map toMiddlewareEffect ∧
    zem.Body sb config req =
      (CheckBody sb handler config req).map toMiddlewareEffect ∧
    zem.Params sp config req =
      (CheckParams sp handler config req).map toMiddlewareEffect ∧
    zem.Query sq config req =
      (CheckQuery sq handler config req).map toMiddlewareEffect := by
  refine ⟨?_, ?_, ?_, ?_⟩
  · simp only [zem.Check, Check]
    rw [zem_checkBranch_eq, checkBranch_eq, List.map_append,
      map_toMiddlewareEffect_appliedList]
    cases firstFailureRes (schemas.body.map (fun s => s req.body))
        (schemas.params.map (fun s => s req.params))
        (schemas.query.map (fun s => s req.query)) with
    | some e => simp [toMiddlewareEffect_emitError]
    | none => rfl
  · unfold zem.Body CheckBody
    cases hb : sb req.body with
    | failure e =>
        simp only [List.map_cons, List.map_nil, toMiddlewareEffect_emitError]
        rfl
    | success t => rfl
  · unfold zem.Params CheckParams
    cases hp : sp req.params with
    | failure e =>
        simp only [List.map_cons, List.map_nil, toMiddlewareEffect_emitError]
        rfl
    | success t => rfl
  · unfold zem.Query CheckQuery
    cases hq : sq req.query with
    | failure e =>
        simp only [List.map_cons, List.map_nil, toMiddlewareEffect_emitError]
        rfl
    | success t => rfl

/-- Claim C9: each decorator replaces the decorated method's callable
value with exactly the result of passing the original method through the
corresponding core operation, so its per-call behaviour is identical to
manual wrapping; in particular, a method decorated with the
body-validating decorator and invoked with an invalid body never executes
the original method. -/
theorem C9_decorators_equal_manual_wrapping {B P Q U V W R : Type}
    (schemas : PartinalCheck B P Q U V W) (sb : Schema B U) (sp : Schema P V)
    (sq : Schema Q W) (config : Option ValidationOptions) (t : Unit)
    (k : String) (d : TypedPropertyDescriptor (Request B P Q → R))
    (req : Request B P Q) (e : ZodError)
    (hb : sb req.body = ParseResult.failure e) :
    (Validate schemas config t k d).value = Check schemas d.value config ∧
    (ValidateBody sb config t k d).value = CheckBody sb d.value config ∧
    (ValidateParams sp config t k d).value = CheckParams sp d.value config ∧
    (ValidateQuery sq config t k d).value = CheckQuery sq d.value config ∧
    ∀ a ∈ (ValidateBody sb config t k d).value req, isHandlerCall a = false := by
  refine ⟨rfl, rfl, rfl, rfl, ?_⟩
  intro a ha
  have hv : (ValidateBody sb config t k d).value req =
      [Effect.applySchema Part.body, emitError config req e] := by
    show CheckBody sb d.value config req = _
    unfold CheckBody
    rw [hb]
  rw [hv] at ha
  simp only [List.mem_cons, List.mem_singleton, List.not_mem_nil,
    or_false] at ha
  rcases ha with ha | ha
  · rw [ha]; rfl
  · rw [ha]; exact isHandlerCall_emitError config req e

/-- Witness for C9 at a concrete input: the decorated value is the manual
wrapping, and with an invalid body no handler-call effect occurs. -/
theorem C9_witness :
    failBodySchema sampleReq.body =
      ParseResult.failure ⟨[⟨"invalid body"⟩]⟩ ∧
    (Validate specB none () "post" ⟨sampleHandler⟩).value =
      Check specB sampleHandler none ∧
    isHandlerCall
      (Effect.applySchema Part.body : Effect String String String String) =
      false :=
  ⟨rfl,
    (C9_decorators_equal_manual_wrapping specB failBodySchema failParamsSchema
      failQuerySchema none () "post" ⟨sampleHandler⟩ sampleReq
      ⟨[⟨"invalid body"⟩]⟩ rfl).1,
    (C9_decorators_equal_manual_wrapping specB failBodySchema failParamsSchema
      failQuerySchema none () "post" ⟨sampleHandler⟩ sampleReq
      ⟨[⟨"invalid body"⟩]⟩ rfl).2.2.2.2 (Effect.applySchema Part.body)
      (by simp [ValidateBody, CheckBody, failBodySchema, sampleReq])⟩

end ZodExpress
